import Mathlib

/-!
Verification of the face-api detection orchestration pipeline
(`src/server.js`) against its natural-language specification.

JavaScript numbers are modelled as exact rationals (`ℚ`) throughout the
box/score pipeline; `Math.sqrt` is modelled by `Real.sqrt`, and the places
where JavaScript division can produce `Infinity`/`NaN` (pose estimation)
use an explicit extended-number type `JSNum`.

The file is organised as: all definitions first, then all theorems.
-/

namespace FaceApi

/-- A bounding box `{x, y, width, height}` in pixel units, origin top-left. -/
structure Box where
  x : ℚ
  y : ℚ
  width : ℚ
  height : ℚ
deriving DecidableEq, Repr

/-- The 68-point landmark set: an ordered list of 2-D positions. -/
structure Landmarks where
  positions : List (ℚ × ℚ)
deriving DecidableEq, Repr

/-- One raw detection as produced by a strategy pass: a box, a confidence
score, optional landmarks, a descriptor vector and the strategy tag that
`detectWithMultipleStrategies` glues on (`d.method`). -/
structure RawDet where
  box : Box
  score : ℚ
  landmarks : Option Landmarks
  descriptor : List ℚ
  method : String
deriving DecidableEq, Repr

/-- `calculateIoU` from `src/server.js` (lines 254-268): intersection over
union of two axis-aligned boxes, `0` when they do not overlap. -/
def calculateIoU (box1 box2 : Box) : ℚ :=
  let x1 := max box1.x box2.x
  let y1 := max box1.y box2.y
  let x2 := min (box1.x + box1.width) (box2.x + box2.width)
  let y2 := min (box1.y + box1.height) (box2.y + box2.height)
  if x2 ≤ x1 ∨ y2 ≤ y1 then 0
  else
    let intersection := (x2 - x1) * (y2 - y1)
    let area1 := box1.width * box1.height
    let area2 := box2.width * box2.height
    let union := area1 + area2 - intersection
    intersection / union

/-- Insert for the stable insertion sort modelling JavaScript
`Array.prototype.sort` (which is stable): `x` goes in front of the first
element `y` such that `le x y`. -/
def insertStable {α : Type} (le : α → α → Bool) (x : α) : List α → List α
  | [] => [x]
  | y :: ys => if le x y then x :: y :: ys else y :: insertStable le x ys

/-- Stable sort by a boolean "may go before" relation, modelling the stable
JavaScript `Array.prototype.sort`. -/
def stableSortBy {α : Type} (le : α → α → Bool) : List α → List α
  | [] => []
  | x :: xs => insertStable le x (stableSortBy le xs)

/-- The comparator `(a, b) => b.detection.score - a.detection.score` used by
`deduplicateDetections`: `a` may stay before `b` iff `b.score ≤ a.score`. -/
def scoreDescLe (a b : RawDet) : Bool :=
  decide (b.score ≤ a.score)

/-- `deduplicateDetections` from `src/server.js` (lines 226-251): sort by
confidence descending, then greedily keep a detection unless its IoU with
an already-kept detection exceeds the `0.3` threshold. -/
def deduplicateDetections (detections : List RawDet) : List RawDet :=
  let sorted := stableSortBy scoreDescLe detections
  sorted.foldl
    (fun deduplicated detection =>
      if deduplicated.any (fun existing =>
          decide ((3 : ℚ)/10 < calculateIoU detection.box existing.box)) then
        deduplicated
      else
        deduplicated ++ [detection])
    []

/-- First detection of the C1 counterexample: box `{0,0,3,2}` (area 6),
confidence 0.9. -/
def c1Det1 : RawDet :=
  { box := ⟨0, 0, 3, 2⟩, score := 9/10, landmarks := none,
    descriptor := [], method := "ssd" }

/-- Second detection of the C1 counterexample: box `{0,0,7,1}` (area 7),
confidence 0.8; intersection with `c1Det1.box` is 3, union is 10, so the
IoU is exactly 0.30. -/
def c1Det2 : RawDet :=
  { box := ⟨0, 0, 7, 1⟩, score := 8/10, landmarks := none,
    descriptor := [], method := "tiny" }

/-! ### JavaScript extended numbers for pose estimation

`estimateFacePose` (lines 411-439) divides by quantities that can be zero;
JavaScript then yields `Infinity` or `NaN` rather than throwing.  `JSNum`
captures the four relevant classes of IEEE-754 doubles exactly. -/

/-- A JavaScript number: a finite (exact) value, `Infinity`, `-Infinity`
or `NaN`. -/
inductive JSNum where
  | num (q : ℚ)
  | posInf
  | negInf
  | nan
deriving DecidableEq, Repr

namespace JSNum

/-- JavaScript subtraction on extended numbers. -/
def sub : JSNum → JSNum → JSNum
  | nan, _ => nan
  | _, nan => nan
  | num a, num b => num (a - b)
  | num _, posInf => negInf
  | num _, negInf => posInf
  | posInf, num _ => posInf
  | negInf, num _ => negInf
  | posInf, negInf => posInf
  | negInf, posInf => negInf
  | posInf, posInf => nan
  | negInf, negInf => nan

/-- JavaScript division of two finite numbers (the only shape occurring in
`estimateFacePose`): division by (positive) zero yields a signed infinity,
`0 / 0` yields `NaN`.  The denominators in the source come from `Math.abs`,
so a zero denominator is `+0`. -/
def divQ (a b : ℚ) : JSNum :=
  if b = 0 then
    if a = 0 then nan
    else if 0 < a then posInf
    else negInf
  else num (a / b)

/-- JavaScript multiplication by the literal 2 (`yaw * 2`). -/
def twice : JSNum → JSNum
  | num a => num (2 * a)
  | posInf => posInf
  | negInf => negInf
  | nan => nan

/-- `Math.abs` on extended numbers. -/
def jabs : JSNum → JSNum
  | num a => num |a|
  | posInf => posInf
  | negInf => posInf
  | nan => nan

/-- `Math.min` on extended numbers: `NaN` if either argument is `NaN`. -/
def jmin : JSNum → JSNum → JSNum
  | nan, _ => nan
  | _, nan => nan
  | num a, num b => num (min a b)
  | posInf, x => x
  | x, posInf => x
  | negInf, _ => negInf
  | _, negInf => negInf

/-- `Math.max` on extended numbers: `NaN` if either argument is `NaN`. -/
def jmax : JSNum → JSNum → JSNum
  | nan, _ => nan
  | _, nan => nan
  | num a, num b => num (max a b)
  | negInf, x => x
  | x, negInf => x
  | posInf, _ => posInf
  | _, posInf => posInf

/-- The JavaScript `<` comparison: any comparison with `NaN` is false. -/
def jlt : JSNum → JSNum → Bool
  | nan, _ => false
  | _, nan => false
  | num a, num b => decide (a < b)
  | posInf, _ => false
  | _, posInf => true
  | negInf, negInf => false
  | negInf, _ => true
  | _, negInf => false

/-- `Math.max(-1, Math.min(1, v))`, the clamp used on yaw and pitch. -/
def clamp (v : JSNum) : JSNum :=
  jmax (num (-1)) (jmin (num 1) v)

end JSNum

/-- The pose estimate `{yaw, pitch, frontal}` returned by
`estimateFacePose`. -/
structure Pose where
  yaw : JSNum
  pitch : JSNum
  frontal : Bool
deriving DecidableEq, Repr

open JSNum in
/-- `estimateFacePose` from `src/server.js` (lines 411-439).  A `null` or
position-less landmarks argument returns `null`; a positions array missing
one of the fixed indices 30/36/45/48 makes the property access throw,
which the `catch` turns into `null`.  Otherwise the pose is computed with
JavaScript arithmetic: divisions by zero produce infinities or `NaN` and
are clamped (or not) accordingly — nothing throws. -/
def estimateFacePose (landmarks : Option Landmarks) : Option Pose :=
  match landmarks with
  | none => none
  | some lm =>
    match lm.positions.get? 30, lm.positions.get? 36,
        lm.positions.get? 45, lm.positions.get? 48 with
    | some nose, some leftEye, some rightEye, some mouth =>
      let eyeDistance : ℚ := |rightEye.1 - leftEye.1|
      let noseToEyeDistance : ℚ := |nose.1 - (leftEye.1 + rightEye.1) / 2|
      let yaw : JSNum := sub (divQ noseToEyeDistance eyeDistance) (num (1/2))
      let eyeY : ℚ := (leftEye.2 + rightEye.2) / 2
      let noseToEyeY : ℚ := nose.2 - eyeY
      let eyeToMouthY : ℚ := mouth.2 - eyeY
      let pitch : JSNum := divQ noseToEyeY |eyeToMouthY|
      some { yaw := clamp (twice yaw)
           , pitch := clamp pitch
           , frontal := jlt (jabs yaw) (num (3/10)) && jlt (jabs pitch) (num (3/10)) }
    | _, _, _, _ => none

/-- A 49-point landmark list whose four referenced points are
left eye `(0,0)` (index 36), right eye `(10,0)` (index 45), nose `(12,0)`
(index 30) and mouth corner `(0,10)` (index 48): the raw yaw is
`7/10 - 1/2 = 1/5`, so the face counts as frontal, while the returned
(doubled, clamped) yaw is `2/5`. -/
def c2Landmarks : Landmarks :=
  { positions :=
      (((List.replicate 49 ((0 : ℚ), (0 : ℚ))).set 30 (12, 0)).set 45 (10, 0)).set 48 (0, 10) }

/-- A fully degenerate 49-point landmark list: every position is `(5,5)`,
so `eyeDistance`, `noseToEyeDistance`, `noseToEyeY` and `eyeToMouthY` are
all zero and both pose divisions are `0 / 0 = NaN`. -/
def c3Landmarks : Landmarks :=
  { positions := List.replicate 49 ((5 : ℚ), (5 : ℚ)) }

/-- `v` lies within `[-1, 1]` in the JavaScript sense: `-1 <= v && v <= 1`
(false for `NaN`). -/
def jsInUnitRange (v : JSNum) : Bool :=
  !(JSNum.jlt v (JSNum.num (-1))) && !(JSNum.jlt (JSNum.num 1) v) &&
    decide (v ≠ JSNum.nan)

/-- A canvas: integer-free model of a node-canvas raster — a width, a
height and the pixel buffer (`getImageData` content). -/
structure Canvas where
  width : ℚ
  height : ℚ
  data : List ℚ
deriving DecidableEq, Repr

/-- `calculateQualityScore` from `src/server.js` (lines 271-295): base
confidence plus a size factor, a landmark factor and a position factor,
capped at 1.  `Math.sqrt` is modelled by `Real.sqrt`. -/
noncomputable def calculateQualityScore (detection : RawDet) (canvas : Canvas) : ℝ :=
  let score : ℚ := detection.score
  let faceArea : ℚ := detection.box.width * detection.box.height
  let imageArea : ℚ := canvas.width * canvas.height
  let sizeRatio : ℚ := faceArea / imageArea
  let sizeFactor : ℚ := min (sizeRatio * 100) 1
  let landmarkFactor : ℚ := if detection.landmarks.isSome then 1/10 else 0
  let centerX : ℚ := canvas.width / 2
  let centerY : ℚ := canvas.height / 2
  let faceX : ℚ := detection.box.x + detection.box.width / 2
  let faceY : ℚ := detection.box.y + detection.box.height / 2
  let distanceFromCenter : ℝ :=
    Real.sqrt (((faceX - centerX : ℚ) : ℝ) ^ 2 + ((faceY - centerY : ℚ) : ℝ) ^ 2)
  let maxDistance : ℝ :=
    Real.sqrt (((centerX : ℚ) : ℝ) ^ 2 + ((centerY : ℚ) : ℝ) ^ 2)
  let positionFactor : ℝ := (1 - distanceFromCenter / maxDistance) * (1/10)
  min ((score : ℝ) + (sizeFactor : ℝ) * (2/10) + (landmarkFactor : ℝ) + positionFactor) 1

/-- The C4 counterexample detection: confidence 0, a 2×2 box whose center
`(630, 40)` lies 600 pixels to the right of the 60×80 canvas. -/
def c4Det : RawDet :=
  { box := ⟨629, 39, 2, 2⟩, score := 0, landmarks := none,
    descriptor := [], method := "ssd" }

/-- The C4 counterexample canvas: 60×80, center `(30, 40)`, whose
center-to-corner distance is exactly 50. -/
def c4Canvas : Canvas := ⟨60, 80, []⟩

/-! ### The multi-strategy detection pass

`detectWithMultipleStrategies` (lines 107-223) runs four face-api
detection calls; the neural detectors themselves are external
collaborators, so they enter the model as an oracle
`Canvas → DetOptions → Except String (List RawDet)`.  The canvas is
threaded as explicit state because Strategy 3 mutates it in place. -/

/-- Options passed to a `faceapi.detectAllFaces` call. -/
inductive DetOptions where
  | ssdMobilenetv1 (minConfidence : ℚ) (maxResults : ℕ)
  | tinyFaceDetector (inputSize : ℕ) (scoreThreshold : ℚ)
deriving DecidableEq, Repr

/-- `d => ({ ...d, method: m })`: tag a detection with its strategy. -/
def setMethod (m : String) (d : RawDet) : RawDet := { d with method := m }

/-- Scale a box's coordinates and dimensions by a factor (the
multi-scale pass rescaling back to original-image coordinates). -/
def scaleBox (b : Box) (f : ℚ) : Box := ⟨b.x * f, b.y * f, b.width * f, b.height * f⟩

/-- `detectWithMultipleStrategies` from `src/server.js` (lines 107-223).
`detectAllFaces` is the external detector oracle; `applyEnhanceFilter`
models the `contrast(1.3) brightness(1.2) saturate(1.1)` filtered
self-draw on the pixel buffer; `downscaleData` models the downscaling
`drawImage` into the strategy-4 small canvas.  Each strategy's call sits
in a `try`/`catch`: an error leaves the accumulated list unchanged.
Strategy 3 snapshots the pixels, enhances the shared canvas in place, and
restores the snapshot only after a successful detection call — the
restore is skipped when the call throws.  Returns the final canvas state
and the accumulated detections. -/
def detectWithMultipleStrategies
    (detectAllFaces : Canvas → DetOptions → Except String (List RawDet))
    (applyEnhanceFilter : List ℚ → List ℚ)
    (downscaleData : Canvas → List ℚ)
    (canvas : Canvas) (returnAllFaces : Bool) : Canvas × List RawDet :=
  let all1 : List RawDet :=
    match detectAllFaces canvas
        (.ssdMobilenetv1 (15/100) (if returnAllFaces then 50 else 15)) with
    | .ok ds => [] ++ ds.map (setMethod "ssd")
    | .error _ => []
  let all2 : List RawDet :=
    match detectAllFaces canvas (.tinyFaceDetector 608 (15/100)) with
    | .ok ds => all1 ++ ds.map (setMethod "tiny")
    | .error _ => all1
  let originalImageData := canvas.data
  let enhancedCanvas : Canvas := { canvas with data := applyEnhanceFilter canvas.data }
  let step3 : Canvas × List RawDet :=
    match detectAllFaces enhancedCanvas (.ssdMobilenetv1 (12/100) 20) with
    | .ok ds =>
      ({ enhancedCanvas with data := originalImageData },
        all2 ++ ds.map (setMethod "enhanced"))
    | .error _ => (enhancedCanvas, all2)
  let canvas3 := step3.1
  let all3 := step3.2
  if 800 < canvas3.width ∨ 600 < canvas3.height then
    let smallCanvas : Canvas :=
      { width := canvas3.width * (7/10), height := canvas3.height * (7/10),
        data := downscaleData canvas3 }
    let scaleFactor := canvas3.width / smallCanvas.width
    match detectAllFaces smallCanvas (.tinyFaceDetector 512 (2/10)) with
    | .ok ds =>
      (canvas3, all3 ++ ds.map (fun d =>
        { d with box := scaleBox d.box scaleFactor, method := "multiscale" }))
    | .error _ => (canvas3, all3)
  else
    (canvas3, all3)

/-- The canvas state after the Enhanced-contrast pass: restored to the
original pixels when the strategy-3 detection call succeeds, left
enhanced when it throws (mirrors the strategy-3 block of
`detectWithMultipleStrategies`). -/
def canvasAfterStrategy3
    (detectAllFaces : Canvas → DetOptions → Except String (List RawDet))
    (applyEnhanceFilter : List ℚ → List ℚ) (canvas : Canvas) : Canvas :=
  let enhancedCanvas : Canvas := { canvas with data := applyEnhanceFilter canvas.data }
  match detectAllFaces enhancedCanvas (.ssdMobilenetv1 (12/100) 20) with
  | .ok _ => { enhancedCanvas with data := canvas.data }
  | .error _ => enhancedCanvas

/-- The candidates a strategy call contributes to the combined list: its
tagged detections on success, nothing on failure. -/
def exceptContrib (m : String) : Except String (List RawDet) → List RawDet
  | .ok ds => ds.map (setMethod m)
  | .error _ => []

/-- The candidates the multi-scale call contributes: its detections with
boxes scaled back to original coordinates on success, nothing on
failure. -/
def exceptContribScaled (f : ℚ) : Except String (List RawDet) → List RawDet
  | .ok ds => ds.map (fun d => { d with box := scaleBox d.box f, method := "multiscale" })
  | .error _ => []

/-- The C5 canvas: 10×10 (small enough to skip strategy 4) with a
one-pixel buffer `[0]`. -/
def c5Canvas : Canvas := ⟨10, 10, [0]⟩

/-- The C5 enhancement-filter model: brightens every pixel by 1, so the
enhanced buffer differs from the original. -/
def c5Enhance (l : List ℚ) : List ℚ := l.map (fun v => v + 1)

/-- The C5 downscale model (unused on the 10×10 canvas). -/
def c5Downscale (_ : Canvas) : List ℚ := []

/-- A detector oracle whose calls all succeed with zero detections. -/
def c5DetOk : Canvas → DetOptions → Except String (List RawDet) :=
  fun _ _ => .ok []

/-- A detector oracle that throws exactly on the Enhanced-contrast pass's
options (`minConfidence 0.12, maxResults 20`) and succeeds elsewhere. -/
def c5DetEnhFail : Canvas → DetOptions → Except String (List RawDet) :=
  fun _ opts =>
    if opts = .ssdMobilenetv1 (12/100) 20 then .error "backend error" else .ok []

/-! ### Response assembly, smart filtering, comparison -/

/-- The `area` field of a response face: box coordinates rounded with
`Math.round` (round half toward positive infinity, which is Mathlib's
`round`). -/
structure RoundedArea where
  x : ℤ
  y : ℤ
  w : ℤ
  h : ℤ
deriving DecidableEq, Repr

/-- A face in the response format built by `detectFacesInternal`
(lines 363-382). -/
structure Face where
  embedding : List ℚ
  area : RoundedArea
  confidence : ℚ
  quality : ℝ
  method : String
  index : ℕ
  landmarks_available : Bool
  estimated_pose : Option Pose

/-- The `uniqueDetections.map((d, index) => ...)` step of
`detectFacesInternal` (lines 363-382): convert each deduplicated
detection to the response format, recording its position in the
deduplicated list as `index`. -/
noncomputable def assembleFaces (uniqueDetections : List RawDet) (canvas : Canvas) :
    List Face :=
  uniqueDetections.enum.map (fun p =>
    { embedding := p.2.descriptor
      area := ⟨round p.2.box.x, round p.2.box.y, round p.2.box.width,
        round p.2.box.height⟩
      confidence := p.2.score
      quality := calculateQualityScore p.2 canvas
      method := p.2.method
      index := p.1
      landmarks_available := p.2.landmarks.isSome
      estimated_pose :=
        match p.2.landmarks with
        | some lm => estimateFacePose (some lm)
        | none => none })

/-- The comparator `(a, b) => b.quality - a.quality` of the final
`faces.sort` (line 385): `a` may stay before `b` iff
`b.quality ≤ a.quality`. -/
noncomputable def qualityDescLe (a b : Face) : Bool :=
  decide (b.quality ≤ a.quality)

/-- The `f.estimated_pose?.frontal` test (optional chaining: a missing
pose is falsy). -/
def poseFrontal (f : Face) : Bool :=
  match f.estimated_pose with
  | some p => p.frontal
  | none => false

/-- The frontal high-quality selection of `smartFilterFaces`
(`f.estimated_pose?.frontal && f.quality > 0.4`). -/
noncomputable def frontalSelection (faces : List Face) : List Face :=
  faces.filter (fun f => poseFrontal f && decide ((4 : ℝ)/10 < f.quality))

/-- `smartFilterFaces` from `src/server.js` (lines 442-458). -/
noncomputable def smartFilterFaces (faces : List Face) (returnAll : Bool) : List Face :=
  if returnAll then
    faces.filter (fun f => decide ((15 : ℝ)/100 < f.quality))
  else
    let frontalFaces := frontalSelection faces
    if 0 < frontalFaces.length then
      frontalFaces.take 5
    else
      (faces.filter (fun f => decide ((25 : ℝ)/100 < f.quality))).take 8

/-- The post-download portion of `detectFacesInternal` (lines 357-392)
operating on the combined strategy output: deduplicate, convert to the
response format (recording `index`), sort by quality descending, apply
smart filtering. -/
noncomputable def detectPipeline (allDetections : List RawDet) (canvas : Canvas)
    (returnAllFaces : Bool) : List Face :=
  let uniqueDetections := deduplicateDetections allDetections
  let faces := assembleFaces uniqueDetections canvas
  let sorted := stableSortBy qualityDescLe faces
  smartFilterFaces sorted returnAllFaces

/-- Modelled from the spec: `faceapi.euclideanDistance` is external
library code (not under `src/`); §6 of the spec defines it as the
Euclidean distance between two equal-length descriptor vectors. -/
noncomputable def euclideanDistance (e1 e2 : List ℚ) : ℝ :=
  Real.sqrt (((e1.zip e2).map (fun p => ((p.1 : ℝ) - (p.2 : ℝ)) ^ 2)).sum)

/-- The response of the `/compare` route. -/
structure CompareResult where
  distance : ℝ
  similarity : ℝ
  is_match : Bool
  confidence : String

/-- The pure computation of the `/compare` route (lines 508-528):
distance, `similarity = max(0, 1 - distance)`,
`is_match = distance < 0.4`, and the qualitative confidence band. -/
noncomputable def compareEmbeddings (embedding1 embedding2 : List ℚ) : CompareResult :=
  let distance := euclideanDistance embedding1 embedding2
  let similarity := max 0 (1 - distance)
  { distance := distance
    similarity := similarity
    is_match := decide (distance < 4/10)
    confidence :=
      if decide ((6 : ℝ)/10 < similarity) then "high"
      else if decide ((4 : ℝ)/10 < similarity) then "medium" else "low" }

/-- The C10 example: a small 2×2 box centered on the canvas with the
higher confidence 0.6 (so it sits first in the deduplicated list) but the
lower quality 0.708. -/
def c10DetA : RawDet :=
  { box := ⟨49, 49, 2, 2⟩, score := 6/10, landmarks := none,
    descriptor := [], method := "ssd" }

/-- The C10 example: a large 40×40 box centered on the canvas with the
lower confidence 0.5 (second in the deduplicated list) but the higher
quality 0.8. -/
def c10DetB : RawDet :=
  { box := ⟨30, 30, 40, 40⟩, score := 5/10, landmarks := none,
    descriptor := [], method := "tiny" }

/-- The C10 example canvas: 100×100. -/
def c10Canvas : Canvas := ⟨100, 100, []⟩

/-- The response face built from `c10DetA` at position 0 of the
deduplicated list. -/
noncomputable def c10FaceA : Face :=
  { embedding := []
    area := ⟨round (49 : ℚ), round (49 : ℚ), round (2 : ℚ), round (2 : ℚ)⟩
    confidence := 6/10
    quality := calculateQualityScore c10DetA c10Canvas
    method := "ssd"
    index := 0
    landmarks_available := false
    estimated_pose := none }

/-- The response face built from `c10DetB` at position 1 of the
deduplicated list. -/
noncomputable def c10FaceB : Face :=
  { embedding := []
    area := ⟨round (30 : ℚ), round (30 : ℚ), round (40 : ℚ), round (40 : ℚ)⟩
    confidence := 5/10
    quality := calculateQualityScore c10DetB c10Canvas
    method := "tiny"
    index := 1
    landmarks_available := false
    estimated_pose := none }

/-! ### The resource-bounded queue

`processQueue` (lines 297-320) and the `/detect` handler (lines 483-506)
form a single-flight batch worker over the global `detectionQueue` and
`isProcessing` flag.  The model is a small-step transition system over the
observable state; steps correspond to the atomic synchronous segments of
the JavaScript event loop: a handler invocation (push + the synchronous
prefix of `processQueue`), a timer-driven `processQueue` invocation, the
completion of one awaited task, and the synchronous batch epilogue. -/

/-- An observable event of the queue worker.  `reclaim true` is the forced
`cleanupTensors(true)` in the `finally` of `detectFacesInternal`, executed
at the end of every task; `reclaim false` is the unforced
`cleanupTensors()` the batch loop runs after resolving each task. -/
inductive Event where
  | taskRun (id : ℕ)
  | reclaim (forced : Bool)
deriving DecidableEq, Repr

/-- `BATCH_SIZE` from `src/server.js` (line 18). -/
def BATCH_SIZE : ℕ := 5

/-- The queue/worker state: `nextId` counts submissions (task identity =
submission order), `queue` models `detectionQueue`, `isProcessing` the
single-flight guard, `batch` the remainder of the batch currently in
flight, and `trace` the chronological event log. -/
structure QState where
  nextId : ℕ
  queue : List ℕ
  isProcessing : Bool
  batch : List ℕ
  trace : List Event
deriving DecidableEq, Repr

/-- The `/detect` handler: push the new task onto `detectionQueue`, then
call `processQueue()`, whose synchronous prefix either returns at the
guard or sets the guard and splices off up to `BATCH_SIZE` tasks. -/
def submitStep (s : QState) : QState :=
  let q := s.queue ++ [s.nextId]
  if s.isProcessing then
    { s with nextId := s.nextId + 1, queue := q }
  else
    { s with nextId := s.nextId + 1, isProcessing := true,
             batch := q.take BATCH_SIZE, queue := q.drop BATCH_SIZE }

/-- A `setTimeout(processQueue, 100)` firing (the reschedule after a
batch): a no-op when the guard is set or the queue is empty, otherwise it
sets the guard and splices off a batch. -/
def wakeStep (s : QState) : QState :=
  if s.isProcessing ∨ s.queue = [] then s
  else
    { s with isProcessing := true, batch := s.queue.take BATCH_SIZE,
             queue := s.queue.drop BATCH_SIZE }

/-- One step of the queue system.  `runTask` is the completion of one
`await detectFacesInternal(...)` in the batch loop: the task runs (with
its forced reclamation in `finally`), then the loop's own
`cleanupTensors()`.  `finishBatch` is the loop epilogue clearing the
guard. -/
inductive Step : QState → QState → Prop where
  | submit (s : QState) : Step s (submitStep s)
  | wake (s : QState) : Step s (wakeStep s)
  | runTask (s : QState) (t : ℕ) (rest : List ℕ) (h : s.batch = t :: rest) :
      Step s { s with
        batch := rest,
        trace := s.trace ++
          [Event.taskRun t, Event.reclaim true, Event.reclaim false] }
  | finishBatch (s : QState) (h1 : s.isProcessing = true) (h2 : s.batch = []) :
      Step s { s with isProcessing := false }

/-- The initial state: empty queue, guard clear. -/
def initState : QState := ⟨0, [], false, [], []⟩

/-- Reachability from the initial state. -/
inductive Reaches : QState → Prop where
  | init : Reaches initState
  | step {s s' : QState} : Reaches s → Step s s' → Reaches s'

/-- The ids of the executed tasks in execution order. -/
def runIds (trace : List Event) : List ℕ :=
  trace.filterMap (fun e =>
    match e with
    | Event.taskRun i => some i
    | _ => none)

/-- A reachable example state: after two handler calls and both task
completions of the first (and only) batch. -/
def c8State : QState :=
  ⟨2, [], true, [],
    [Event.taskRun 0, Event.reclaim true, Event.reclaim false,
     Event.taskRun 1, Event.reclaim true, Event.reclaim false]⟩

/-- The C6 witness face: quality 0.5, frontal pose available. -/
noncomputable def c6Face : Face :=
  { embedding := []
    area := ⟨0, 0, 1, 1⟩
    confidence := 1/2
    quality := 1/2
    method := "ssd"
    index := 0
    landmarks_available := true
    estimated_pose := some ⟨JSNum.num 0, JSNum.num 0, true⟩ }

end FaceApi

namespace FaceApi

/-! ### Theorems -/

/-- `calculateIoU` is symmetric in its two boxes. -/
theorem calculateIoU_comm (b1 b2 : Box) :
    calculateIoU b1 b2 = calculateIoU b2 b1 := by
  simp only [calculateIoU]
  rw [max_comm b2.x b1.x, max_comm b2.y b1.y,
    min_comm (b2.x + b2.width) (b1.x + b1.width),
    min_comm (b2.y + b2.height) (b1.y + b1.height),
    add_comm (b2.width * b2.height) (b1.width * b1.height)]

/-- Elements of the output of `deduplicateDetections` come from the fold;
every pair of distinct positions in the output has IoU at most `3/10`. -/
theorem dedup_fold_pairwise (l : List RawDet) (acc : List RawDet)
    (hacc : acc.Pairwise (fun a b => calculateIoU a.box b.box ≤ 3/10)) :
    (l.foldl
      (fun deduplicated detection =>
        if deduplicated.any (fun existing =>
            decide ((3 : ℚ)/10 < calculateIoU detection.box existing.box)) then
          deduplicated
        else
          deduplicated ++ [detection])
      acc).Pairwise (fun a b => calculateIoU a.box b.box ≤ 3/10) := by
  induction l generalizing acc with
  | nil => simpa using hacc
  | cons d rest ih =>
    simp only [List.foldl_cons]
    by_cases hdup : acc.any (fun existing =>
        decide ((3 : ℚ)/10 < calculateIoU d.box existing.box)) = true
    · rw [if_pos hdup]
      exact ih acc hacc
    · rw [if_neg hdup]
      apply ih
      rw [List.pairwise_append]
      refine ⟨hacc, List.pairwise_singleton _ _, ?_⟩
      intro a ha b hb
      simp only [List.mem_singleton] at hb
      subst hb
      simp only [List.any_eq_true, decide_eq_true_eq, not_exists, not_and] at hdup
      have := hdup a ha
      rw [calculateIoU_comm]
      exact le_of_not_lt this

/-- Claim C1 (amended): the Deduplicator's output never contains two
detections whose boxes have IoU strictly greater than 0.30 — every pair of
distinct entries in the output has IoU ≤ 0.30. -/
theorem claim_C1_amended (detections : List RawDet) :
    (deduplicateDetections detections).Pairwise
      (fun a b => calculateIoU a.box b.box ≤ 3/10) := by
  unfold deduplicateDetections
  exact dedup_fold_pairwise _ [] (List.Pairwise.nil)

/-- Claim C1 (counterexample): the code rejects a candidate only when its
IoU with an accepted box is strictly greater than 0.30, so two detections
at IoU exactly 0.30 are both returned — the claimed "never two detections
with IoU ≥ 0.30" is false. -/
theorem claim_C1_counterexample :
    calculateIoU c1Det1.box c1Det2.box = 3/10 ∧
    (3 : ℚ)/10 ≤ calculateIoU c1Det1.box c1Det2.box ∧
    deduplicateDetections [c1Det1, c1Det2] = [c1Det1, c1Det2] := by
  refine ⟨?_, ?_, ?_⟩
  · norm_num [calculateIoU, c1Det1, c1Det2]
  · norm_num [calculateIoU, c1Det1, c1Det2]
  · norm_num [deduplicateDetections, stableSortBy, insertStable, scoreDescLe,
      calculateIoU, c1Det1, c1Det2]

/-- Clamping `2*r` to `[-1,1]` and comparing with `3/5` is the same as
comparing `|r|` with `3/10`. -/
theorem clamp_twice_abs_iff (r : ℚ) :
    |max (-1) (min 1 (2 * r))| < 3/5 ↔ |r| < 3/10 := by
  rw [abs_lt, abs_lt]
  constructor
  · rintro ⟨h1, h2⟩
    rcases max_lt_iff.mp h2 with ⟨-, hmin⟩
    rcases min_lt_iff.mp hmin with hbad | h2r
    · linarith
    · rcases lt_max_iff.mp h1 with hbad | hmin2
      · linarith
      · rcases lt_min_iff.mp hmin2 with ⟨-, h2l⟩
        constructor <;> linarith
  · rintro ⟨h1, h2⟩
    have hmin : min 1 (2 * r) = 2 * r := min_eq_right (by linarith)
    have hmax : max (-1 : ℚ) (2 * r) = 2 * r := max_eq_right (by linarith)
    rw [hmin, hmax]
    constructor <;> linarith

/-- Clamping `q` to `[-1,1]` does not change a comparison of its absolute
value with a bound below 1. -/
theorem clamp_abs_iff (q : ℚ) :
    |max (-1) (min 1 q)| < 3/10 ↔ |q| < 3/10 := by
  rw [abs_lt, abs_lt]
  constructor
  · rintro ⟨h1, h2⟩
    rcases max_lt_iff.mp h2 with ⟨-, hmin⟩
    rcases min_lt_iff.mp hmin with hbad | hq
    · linarith
    · rcases lt_max_iff.mp h1 with hbad | hmin2
      · linarith
      · rcases lt_min_iff.mp hmin2 with ⟨-, hql⟩
        constructor <;> linarith
  · rintro ⟨h1, h2⟩
    have hmin : min 1 q = q := min_eq_right (by linarith)
    have hmax : max (-1 : ℚ) q = q := max_eq_right (by linarith)
    rw [hmin, hmax]
    constructor <;> linarith

open JSNum in
/-- The yaw part of the frontal test: testing the raw (pre-doubling,
pre-clamp) yaw against 0.3 is the same as testing the returned (doubled,
clamped) yaw against 0.6, for every value the JavaScript arithmetic can
produce (including the division-by-zero infinities and `NaN`). -/
theorem yaw_frontal_equiv (a b : ℚ) (ha : 0 ≤ a) :
    jlt (jabs (sub (divQ a b) (num (1/2)))) (num (3/10)) =
    jlt (jabs (clamp (twice (sub (divQ a b) (num (1/2)))))) (num (3/5)) := by
  by_cases hb : b = 0
  · by_cases ha0 : a = 0
    · simp [divQ, hb, ha0, sub, twice, clamp, jmin, jmax, jabs, jlt]
    · have hapos : 0 < a := lt_of_le_of_ne ha (Ne.symm ha0)
      simp only [divQ, if_pos hb, if_neg ha0, if_pos hapos]
      simp only [sub, twice, clamp, jmin, jmax, jabs, jlt]
      norm_num
  · simp only [divQ, if_neg hb, sub, twice, clamp, jmin, jmax, jabs, jlt]
    rw [Bool.eq_iff_iff]
    simp only [decide_eq_true_eq]
    exact (clamp_twice_abs_iff (a / b - 1/2)).symm

open JSNum in
/-- The pitch part of the frontal test: clamping to `[-1,1]` does not
change the comparison with 0.3, for every value the JavaScript arithmetic
can produce. -/
theorem pitch_frontal_equiv (c d : ℚ) :
    jlt (jabs (divQ c d)) (num (3/10)) =
    jlt (jabs (clamp (divQ c d))) (num (3/10)) := by
  by_cases hd : d = 0
  · by_cases hc0 : c = 0
    · simp [divQ, hd, hc0, clamp, jmin, jmax, jabs, jlt]
    · by_cases hcpos : 0 < c
      · simp only [divQ, if_pos hd, if_neg hc0, if_pos hcpos]
        simp only [clamp, jmin, jmax, jabs, jlt]
        norm_num
      · simp only [divQ, if_pos hd, if_neg hc0, if_neg hcpos]
        simp only [clamp, jmin, jmax, jabs, jlt]
        norm_num
  · simp only [divQ, if_neg hd, clamp, jmin, jmax, jabs, jlt]
    rw [Bool.eq_iff_iff]
    simp only [decide_eq_true_eq]
    exact (clamp_abs_iff (c / d)).symm

/-- Claim C2 (amended): for every detection whose pose is computed, the
returned `frontal` flag equals `|yaw| < 0.6 AND |pitch| < 0.3` in terms of
the returned (clamped) `yaw`/`pitch` fields — equivalently
`|yawRaw| < 0.3 AND |pitchRaw| < 0.3` on the pre-doubling, pre-clamp
values, because the code computes `frontal` from the raw yaw before it is
doubled and clamped. -/
theorem claim_C2_amended (lm : Option Landmarks) (p : Pose)
    (h : estimateFacePose lm = some p) :
    p.frontal = (JSNum.jlt (JSNum.jabs p.yaw) (JSNum.num (3/5)) &&
                 JSNum.jlt (JSNum.jabs p.pitch) (JSNum.num (3/10))) := by
  match lm with
  | none => simp [estimateFacePose] at h
  | some l =>
    rw [estimateFacePose] at h
    rcases h30 : l.positions.get? 30 with - | nose <;>
      rcases h36 : l.positions.get? 36 with - | leftEye <;>
      rcases h45 : l.positions.get? 45 with - | rightEye <;>
      rcases h48 : l.positions.get? 48 with - | mouth <;>
      rw [h30, h36, h45, h48] at h <;>
      simp only [Option.some.injEq, reduceCtorEq] at h
    subst h
    simp only []
    rw [yaw_frontal_equiv _ _ (abs_nonneg _), pitch_frontal_equiv]

/-- Claim C2 (witness): the amended theorem applied to the concrete
landmark set `c2Landmarks`. -/
theorem claim_C2_witness :
    estimateFacePose (some c2Landmarks) =
      some ⟨JSNum.num (2/5), JSNum.num 0, true⟩ ∧
    (true : Bool) =
      (JSNum.jlt (JSNum.jabs (JSNum.num (2/5))) (JSNum.num (3/5)) &&
       JSNum.jlt (JSNum.jabs (JSNum.num 0)) (JSNum.num (3/10))) := by
  have heval : estimateFacePose (some c2Landmarks) =
      some ⟨JSNum.num (2/5), JSNum.num 0, true⟩ := by
    rw [estimateFacePose]
    simp only [c2Landmarks, List.get?_eq_getElem?, List.getElem?_set,
      List.getElem?_replicate]
    norm_num [JSNum.divQ, JSNum.sub, JSNum.twice, JSNum.clamp, JSNum.jmin,
      JSNum.jmax, JSNum.jabs, JSNum.jlt, abs_lt]
  exact ⟨heval,
    claim_C2_amended (some c2Landmarks) ⟨JSNum.num (2/5), JSNum.num 0, true⟩ heval⟩

/-- Claim C2 (counterexample): on `c2Landmarks` the raw yaw is `1/5`, so
the code reports `frontal = true`, while the claimed formula on the
returned (clamped, doubled) yaw `2/5` gives `|yaw| < 0.3 = false`. -/
theorem claim_C2_counterexample :
    estimateFacePose (some c2Landmarks) =
      some ⟨JSNum.num (2/5), JSNum.num 0, true⟩ ∧
    (JSNum.jlt (JSNum.jabs (JSNum.num (2/5))) (JSNum.num (3/10)) &&
     JSNum.jlt (JSNum.jabs (JSNum.num 0)) (JSNum.num (3/10))) = false := by
  constructor
  · rw [estimateFacePose]
    simp only [c2Landmarks, List.get?_eq_getElem?, List.getElem?_set,
      List.getElem?_replicate]
    norm_num [JSNum.divQ, JSNum.sub, JSNum.twice, JSNum.clamp, JSNum.jmin,
      JSNum.jmax, JSNum.jabs, JSNum.jlt, abs_lt]
  · norm_num [JSNum.jabs, JSNum.jlt, le_abs]

/-- Claim C3 (code bug): on fully degenerate landmark geometry (all four
referenced points equal) both pose divisions are `0/0 = NaN`; JavaScript
does not throw, the `catch` never fires, and the function returns a pose
object whose `yaw` and `pitch` are `NaN` — neither within `[-1,1]` nor
"pose unavailable". -/
theorem claim_C3_code_bug :
    estimateFacePose (some c3Landmarks) =
      some ⟨JSNum.nan, JSNum.nan, false⟩ ∧
    jsInUnitRange JSNum.nan = false ∧
    estimateFacePose (some c3Landmarks) ≠ none := by
  have heval : estimateFacePose (some c3Landmarks) =
      some ⟨JSNum.nan, JSNum.nan, false⟩ := by
    rw [estimateFacePose]
    simp only [c3Landmarks, List.get?_eq_getElem?, List.getElem?_replicate]
    norm_num [JSNum.divQ, JSNum.sub, JSNum.twice, JSNum.clamp, JSNum.jmin,
      JSNum.jmax, JSNum.jabs, JSNum.jlt]
  refine ⟨heval, by simp [jsInUnitRange, JSNum.jlt], by rw [heval]; simp⟩

/-- Claim C4 (counterexample): with confidence 0 (allowed by the claim), a
positive-dimension box and positive image dimensions, a box centered 600
pixels outside the 60×80 image drives the position factor to `-1.1` and
the quality score below 0, refuting "qualityScore lies in [0,1] for any
box position". -/
theorem claim_C4_counterexample :
    (0 : ℚ) ≤ c4Det.score ∧ c4Det.score ≤ 1 ∧
    0 < c4Det.box.width ∧ 0 < c4Det.box.height ∧
    0 < c4Canvas.width ∧ 0 < c4Canvas.height ∧
    calculateQualityScore c4Det c4Canvas < 0 := by
  refine ⟨by norm_num [c4Det], by norm_num [c4Det], by norm_num [c4Det],
    by norm_num [c4Det], by norm_num [c4Canvas], by norm_num [c4Canvas], ?_⟩
  have h1 : Real.sqrt 360000 = 600 := by
    rw [show (360000 : ℝ) = 600 ^ 2 by norm_num]
    exact Real.sqrt_sq (by norm_num)
  have h2 : Real.sqrt 2500 = 50 := by
    rw [show (2500 : ℝ) = 50 ^ 2 by norm_num]
    exact Real.sqrt_sq (by norm_num)
  simp only [calculateQualityScore, c4Det, c4Canvas]
  norm_num
  rw [h1, h2]
  norm_num [min_lt_iff]

/-- Claim C4 (amended): the quality score is always at most 1, and it lies
in `[0,1]` whenever, in addition to the claim's hypotheses
(confidence in `[0,1]`, positive box and image dimensions), the box center
lies within the image bounds.  (For boxes centered far enough outside the
image the position factor is negative enough to push the score below 0, as
the counterexample shows.) -/
theorem claim_C4_amended (d : RawDet) (c : Canvas)
    (hs0 : 0 ≤ d.score) (hs1 : d.score ≤ 1)
    (hw : 0 < d.box.width) (hh : 0 < d.box.height)
    (hcw : 0 < c.width) (hch : 0 < c.height)
    (hfx0 : 0 ≤ d.box.x + d.box.width / 2)
    (hfx1 : d.box.x + d.box.width / 2 ≤ c.width)
    (hfy0 : 0 ≤ d.box.y + d.box.height / 2)
    (hfy1 : d.box.y + d.box.height / 2 ≤ c.height) :
    0 ≤ calculateQualityScore d c ∧ calculateQualityScore d c ≤ 1 := by
  simp only [calculateQualityScore]
  constructor
  · apply le_min _ (by norm_num)
    have hscore : (0 : ℝ) ≤ (d.score : ℝ) := by exact_mod_cast hs0
    have hsize : (0 : ℝ) ≤
        ((min (d.box.width * d.box.height / (c.width * c.height) * 100) 1 : ℚ) : ℝ) := by
      have : (0 : ℚ) ≤ min (d.box.width * d.box.height / (c.width * c.height) * 100) 1 := by
        apply le_min _ (by norm_num)
        positivity
      exact_mod_cast this
    have hlf : (0 : ℝ) ≤ ((if d.landmarks.isSome then (1 : ℚ)/10 else 0 : ℚ) : ℝ) := by
      split <;> norm_num
    have hpos : (0 : ℝ) ≤
        (1 - Real.sqrt (((d.box.x + d.box.width / 2 - c.width / 2 : ℚ) : ℝ) ^ 2 +
              ((d.box.y + d.box.height / 2 - c.height / 2 : ℚ) : ℝ) ^ 2) /
            Real.sqrt (((c.width / 2 : ℚ) : ℝ) ^ 2 + ((c.height / 2 : ℚ) : ℝ) ^ 2)) *
          (1/10) := by
      apply mul_nonneg _ (by norm_num)
      have hB : (0 : ℝ) <
          ((c.width / 2 : ℚ) : ℝ) ^ 2 + ((c.height / 2 : ℚ) : ℝ) ^ 2 := by
        have h1 : (0 : ℝ) < ((c.width / 2 : ℚ) : ℝ) := by
          rw [show ((c.width / 2 : ℚ) : ℝ) = (c.width : ℝ) / 2 by push_cast; ring]
          have : (0 : ℝ) < (c.width : ℝ) := by exact_mod_cast hcw
          linarith
        positivity
      have hAB : ((d.box.x + d.box.width / 2 - c.width / 2 : ℚ) : ℝ) ^ 2 +
          ((d.box.y + d.box.height / 2 - c.height / 2 : ℚ) : ℝ) ^ 2 ≤
          ((c.width / 2 : ℚ) : ℝ) ^ 2 + ((c.height / 2 : ℚ) : ℝ) ^ 2 := by
        have hx : ((d.box.x + d.box.width / 2 - c.width / 2 : ℚ) : ℝ) ^ 2 ≤
            ((c.width / 2 : ℚ) : ℝ) ^ 2 := by
          apply sq_le_sq'
          · push_cast
            have h0 : (0 : ℝ) ≤ ((d.box.x : ℝ) + (d.box.width : ℝ) / 2) := by
              exact_mod_cast hfx0
            linarith
          · push_cast
            have h1 : ((d.box.x : ℝ) + (d.box.width : ℝ) / 2) ≤ (c.width : ℝ) := by
              exact_mod_cast hfx1
            linarith
        have hy : ((d.box.y + d.box.height / 2 - c.height / 2 : ℚ) : ℝ) ^ 2 ≤
            ((c.height / 2 : ℚ) : ℝ) ^ 2 := by
          apply sq_le_sq'
          · push_cast
            have h0 : (0 : ℝ) ≤ ((d.box.y : ℝ) + (d.box.height : ℝ) / 2) := by
              exact_mod_cast hfy0
            linarith
          · push_cast
            have h1 : ((d.box.y : ℝ) + (d.box.height : ℝ) / 2) ≤ (c.height : ℝ) := by
              exact_mod_cast hfy1
            linarith
        linarith
      have hratio : Real.sqrt (((d.box.x + d.box.width / 2 - c.width / 2 : ℚ) : ℝ) ^ 2 +
            ((d.box.y + d.box.height / 2 - c.height / 2 : ℚ) : ℝ) ^ 2) /
          Real.sqrt (((c.width / 2 : ℚ) : ℝ) ^ 2 + ((c.height / 2 : ℚ) : ℝ) ^ 2) ≤ 1 := by
        rw [div_le_one (Real.sqrt_pos.mpr hB)]
        exact Real.sqrt_le_sqrt hAB
      linarith
    linarith
  · exact min_le_right _ _

/-- Claim C4 (witness): the amended bounds at a concrete centered box. -/
theorem claim_C4_witness :
    0 ≤ calculateQualityScore
        { box := ⟨0, 0, 2, 2⟩, score := 1/2, landmarks := none,
          descriptor := [], method := "ssd" } ⟨2, 2, []⟩ ∧
    calculateQualityScore
        { box := ⟨0, 0, 2, 2⟩, score := 1/2, landmarks := none,
          descriptor := [], method := "ssd" } ⟨2, 2, []⟩ ≤ 1 :=
  claim_C4_amended _ _ (by norm_num) (by norm_num) (by norm_num) (by norm_num)
    (by norm_num) (by norm_num) (by norm_num) (by norm_num) (by norm_num)
    (by norm_num)

/-- Claim C5 (code bug): the Enhanced-contrast pass restores the canvas on
the success path, but when its detection call throws, the `catch` skips
`ctx.putImageData` and the boosted pixels stay on the shared canvas — the
image seen by subsequent passes is *not* the original on every exit
path. -/
theorem claim_C5_code_bug :
    (detectWithMultipleStrategies c5DetOk c5Enhance c5Downscale c5Canvas false).1
      = c5Canvas ∧
    (detectWithMultipleStrategies c5DetEnhFail c5Enhance c5Downscale c5Canvas false).1.data
      = c5Enhance c5Canvas.data ∧
    c5Enhance c5Canvas.data ≠ c5Canvas.data := by
  refine ⟨?_, ?_, by norm_num [c5Enhance, c5Canvas]⟩
  · norm_num [detectWithMultipleStrategies, c5DetOk, c5Enhance, c5Downscale, c5Canvas]
  · norm_num [detectWithMultipleStrategies, c5DetEnhFail, c5Enhance, c5Downscale,
      c5Canvas]

/-- Claim C7: (1) the combined detection list always decomposes into the
four per-strategy contributions, where a strategy whose call errors
contributes the empty list (and the function itself is total: a strategy
failure never propagates); (2) in particular, when every detection call
fails the pass yields zero candidates rather than an error. -/
theorem claim_C7_strategy_isolation :
    (∀ (det : Canvas → DetOptions → Except String (List RawDet))
        (enh : List ℚ → List ℚ) (down : Canvas → List ℚ)
        (canvas : Canvas) (ra : Bool),
      (detectWithMultipleStrategies det enh down canvas ra).2 =
        exceptContrib "ssd"
            (det canvas (.ssdMobilenetv1 (15/100) (if ra then 50 else 15))) ++
          exceptContrib "tiny" (det canvas (.tinyFaceDetector 608 (15/100))) ++
          exceptContrib "enhanced"
            (det { canvas with data := enh canvas.data }
              (.ssdMobilenetv1 (12/100) 20)) ++
          (if 800 < canvas.width ∨ 600 < canvas.height then
            exceptContribScaled (canvas.width / (canvas.width * (7/10)))
              (det ⟨canvas.width * (7/10), canvas.height * (7/10),
                    down (canvasAfterStrategy3 det enh canvas)⟩
                (.tinyFaceDetector 512 (2/10)))
          else [])) ∧
    (∀ (enh : List ℚ → List ℚ) (down : Canvas → List ℚ)
        (canvas : Canvas) (ra : Bool),
      (detectWithMultipleStrategies (fun _ _ => .error "backend error")
          enh down canvas ra).2 = []) := by
  constructor
  · intro det enh down canvas ra
    simp only [detectWithMultipleStrategies, canvasAfterStrategy3,
      exceptContrib, exceptContribScaled]
    rcases h3 : det { canvas with data := enh canvas.data }
        (.ssdMobilenetv1 (12/100) 20) with e3 | ds3 <;>
    rcases h1 : det canvas (.ssdMobilenetv1 (15/100) (if ra then 50 else 15)) with e1 | ds1 <;>
    rcases h2 : det canvas (.tinyFaceDetector 608 (15/100)) with e2 | ds2 <;>
    simp only [h1, h2, h3] <;>
    split_ifs <;>
    first
      | (split <;> simp)
      | simp
  · intro enh down canvas ra
    simp only [detectWithMultipleStrategies]
    by_cases hbig : 800 < canvas.width ∨ 600 < canvas.height <;> simp [hbig]

/-- Membership in a stable insert. -/
theorem mem_insertStable {α : Type} (le : α → α → Bool) (x a : α) (l : List α) :
    a ∈ insertStable le x l ↔ a = x ∨ a ∈ l := by
  induction l with
  | nil => simp [insertStable]
  | cons y ys ih =>
    simp only [insertStable]
    split
    · simp
    · simp only [List.mem_cons, ih]
      tauto

/-- The stable sort is a permutation in the membership sense. -/
theorem mem_stableSortBy {α : Type} (le : α → α → Bool) (a : α) (l : List α) :
    a ∈ stableSortBy le l ↔ a ∈ l := by
  induction l with
  | nil => simp [stableSortBy]
  | cons x xs ih => simp [stableSortBy, mem_insertStable, ih]

/-- Every face returned by the smart filter comes from the input list. -/
theorem smartFilterFaces_subset (faces : List Face) (returnAll : Bool) (f : Face)
    (hf : f ∈ smartFilterFaces faces returnAll) : f ∈ faces := by
  unfold smartFilterFaces at hf
  split at hf
  · exact (List.mem_filter.1 hf).1
  · simp only [frontalSelection] at hf
    split at hf
    · exact (List.mem_filter.1 ((List.take_sublist _ _).subset hf)).1
    · exact (List.mem_filter.1 ((List.take_sublist _ _).subset hf)).1

/-- Claim C6: the ResultSelector policies. With `returnAll = true` the
output is exactly the detections with quality above 0.15 (so none of them
is dropped); with `returnAll = false` it is the frontal faces with
quality above 0.4 capped at 5 when any exist, else the faces with quality
above 0.25 capped at 8; and it preserves the
quality-descending order of its input, so the capped prefix is
highest-quality first. -/
theorem claim_C6_selector :
    (∀ faces : List Face,
      smartFilterFaces faces true =
        faces.filter (fun f => decide ((15 : ℝ)/100 < f.quality))) ∧
    (∀ (faces : List Face) (f : Face),
      f ∈ faces → (15 : ℝ)/100 < f.quality → f ∈ smartFilterFaces faces true) ∧
    (∀ faces : List Face, frontalSelection faces ≠ [] →
      smartFilterFaces faces false = (frontalSelection faces).take 5 ∧
      (smartFilterFaces faces false).length ≤ 5) ∧
    (∀ faces : List Face, frontalSelection faces = [] →
      smartFilterFaces faces false =
        (faces.filter (fun f => decide ((25 : ℝ)/100 < f.quality))).take 8 ∧
      (smartFilterFaces faces false).length ≤ 8) ∧
    (∀ (faces : List Face) (returnAll : Bool),
      faces.Pairwise (fun a b => b.quality ≤ a.quality) →
      (smartFilterFaces faces returnAll).Pairwise
        (fun a b => b.quality ≤ a.quality)) := by
  refine ⟨fun faces => by simp [smartFilterFaces], ?_, ?_, ?_, ?_⟩
  · intro faces f hf hq
    simp only [smartFilterFaces, if_true]
    exact List.mem_filter.2 ⟨hf, decide_eq_true hq⟩
  · intro faces hne
    have hlen : 0 < (frontalSelection faces).length := List.length_pos.2 hne
    have heq : smartFilterFaces faces false = (frontalSelection faces).take 5 := by
      simp only [smartFilterFaces, Bool.false_eq_true, if_false]
      rw [if_pos hlen]
    exact ⟨heq, heq ▸ List.length_take_le 5 _⟩
  · intro faces hempty
    have hlen : ¬ 0 < (frontalSelection faces).length := by
      simp [hempty]
    have heq : smartFilterFaces faces false =
        (faces.filter (fun f => decide ((25 : ℝ)/100 < f.quality))).take 8 := by
      simp only [smartFilterFaces, Bool.false_eq_true, if_false]
      rw [if_neg hlen]
    exact ⟨heq, heq ▸ List.length_take_le 8 _⟩
  · intro faces returnAll hp
    unfold smartFilterFaces
    split
    · exact hp.filter _
    · dsimp only
      split
      · exact List.Pairwise.sublist (List.take_sublist _ _)
          (List.Pairwise.filter _ hp)
      · exact List.Pairwise.sublist (List.take_sublist _ _)
          (List.Pairwise.filter _ hp)

/-- Claim C6 (witness): the selector applied to a singleton list holding a
frontal face of quality 0.5. -/
theorem claim_C6_witness :
    c6Face ∈ smartFilterFaces [c6Face] true ∧
    smartFilterFaces [c6Face] false = (frontalSelection [c6Face]).take 5 := by
  have hq : c6Face.quality = 1/2 := rfl
  have hne : frontalSelection [c6Face] ≠ [] := by
    have hcond : (poseFrontal c6Face && decide ((4 : ℝ)/10 < c6Face.quality)) = true := by
      rw [hq]
      simp only [poseFrontal, c6Face]
      exact decide_eq_true (by norm_num)
    simp [frontalSelection, List.filter, hcond]
  refine ⟨claim_C6_selector.2.1 [c6Face] c6Face (by simp) ?_,
    (claim_C6_selector.2.2.1 [c6Face] hne).1⟩
  rw [hq]
  norm_num

/-- The sum of coordinate-wise squared differences is symmetric. -/
theorem sumsq_swap (e1 e2 : List ℚ) :
    ((e1.zip e2).map (fun p => ((p.1 : ℝ) - (p.2 : ℝ)) ^ 2)).sum =
    ((e2.zip e1).map (fun p => ((p.1 : ℝ) - (p.2 : ℝ)) ^ 2)).sum := by
  induction e1 generalizing e2 with
  | nil => simp
  | cons a as ih =>
    cases e2 with
    | nil => simp
    | cons b bs =>
      simp only [List.zip_cons_cons, List.map_cons, List.sum_cons, ih bs]
      congr 1
      ring

/-- The Euclidean distance is symmetric. -/
theorem euclideanDistance_comm (e1 e2 : List ℚ) :
    euclideanDistance e1 e2 = euclideanDistance e2 e1 := by
  unfold euclideanDistance
  rw [sumsq_swap]

/-- The distance from a vector to itself is zero. -/
theorem euclideanDistance_self (e : List ℚ) : euclideanDistance e e = 0 := by
  unfold euclideanDistance
  have hz : ((e.zip e).map (fun p => ((p.1 : ℝ) - (p.2 : ℝ)) ^ 2)).sum = 0 := by
    induction e with
    | nil => simp
    | cons a as ih =>
      simp only [List.zip_cons_cons, List.map_cons, List.sum_cons, ih]
      ring
  rw [hz, Real.sqrt_zero]

/-- Claim C9: `compareEmbeddings` is a pure symmetric function of two
equal-length descriptor vectors; `compare(e,e)` has distance 0 and
matches; `similarity = max(0, 1 - distance)`; and `isMatch` holds iff
`distance < 0.4`. -/
theorem claim_C9_compare :
    (∀ e1 e2 : List ℚ, e1.length = e2.length →
      compareEmbeddings e1 e2 = compareEmbeddings e2 e1) ∧
    (∀ e : List ℚ, (compareEmbeddings e e).distance = 0 ∧
      (compareEmbeddings e e).is_match = true) ∧
    (∀ e1 e2 : List ℚ,
      (compareEmbeddings e1 e2).similarity =
        max 0 (1 - (compareEmbeddings e1 e2).distance)) ∧
    (∀ e1 e2 : List ℚ,
      (compareEmbeddings e1 e2).is_match = true ↔
        (compareEmbeddings e1 e2).distance < 4/10) := by
  refine ⟨?_, ?_, ?_, ?_⟩
  · intro e1 e2 _
    simp only [compareEmbeddings]
    rw [euclideanDistance_comm e1 e2]
  · intro e
    simp only [compareEmbeddings]
    rw [euclideanDistance_self]
    exact ⟨rfl, decide_eq_true (by norm_num)⟩
  · intro e1 e2
    rfl
  · intro e1 e2
    simp [compareEmbeddings]

/-- Claim C9 (witness): symmetry applied to two concrete equal-length
embeddings. -/
theorem claim_C9_witness :
    compareEmbeddings [(1 : ℚ)/2] [(1 : ℚ)/10] =
      compareEmbeddings [(1 : ℚ)/10] [(1 : ℚ)/2] :=
  claim_C9_compare.1 _ _ rfl

/-- Looking up a face of the assembled list at its own `index` field gives
that face back: `index` records the position in the deduplicated list. -/
theorem assembleFaces_get_index (u : List RawDet) (c : Canvas) (f : Face)
    (hf : f ∈ assembleFaces u c) :
    (assembleFaces u c).get? f.index = some f := by
  rcases List.mem_iff_getElem.1 hf with ⟨i, hi, hget⟩
  have hidx : f.index = i := by
    rw [← hget]
    simp [assembleFaces]
  rw [hidx, List.get?_eq_getElem?, List.getElem?_eq_getElem hi, hget]

/-- Claim C10: (1) in every pipeline output, each returned face's `index`
field is its position in the deduplicated list before the final
quality sort and the selection filtering — looking the assembled
(pre-sort) list up at `index` yields exactly that face; (2) consequently
the indices in a returned sequence need not be ascending: on the concrete
input `[c10DetA, c10DetB]` the pipeline returns the faces in index order
`[1, 0]`. -/
theorem claim_C10_index_semantics :
    (∀ (dets : List RawDet) (canvas : Canvas) (returnAll : Bool),
      (detectPipeline dets canvas returnAll).Forall (fun f =>
        (assembleFaces (deduplicateDetections dets) canvas).get? f.index
          = some f)) ∧
    ((detectPipeline [c10DetA, c10DetB] c10Canvas true).map (fun f => f.index)
      = [1, 0]) := by
  constructor
  · intro dets canvas returnAll
    rw [List.forall_iff_forall_mem]
    intro f hf
    simp only [detectPipeline] at hf
    have h1 : f ∈ stableSortBy qualityDescLe
        (assembleFaces (deduplicateDetections dets) canvas) :=
      smartFilterFaces_subset _ _ _ hf
    exact assembleFaces_get_index _ _ _ ((mem_stableSortBy _ _ _).1 h1)
  · have hded : deduplicateDetections [c10DetA, c10DetB] = [c10DetA, c10DetB] := by
      norm_num [deduplicateDetections, stableSortBy, insertStable, scoreDescLe,
        calculateIoU, c10DetA, c10DetB]
    have hasm : assembleFaces [c10DetA, c10DetB] c10Canvas = [c10FaceA, c10FaceB] :=
      rfl
    have hqA : c10FaceA.quality = 177/250 := by
      show calculateQualityScore c10DetA c10Canvas = 177/250
      simp only [calculateQualityScore, c10DetA, c10Canvas]
      norm_num [Real.sqrt_zero, min_def]
    have hqB : c10FaceB.quality = 4/5 := by
      show calculateQualityScore c10DetB c10Canvas = 4/5
      simp only [calculateQualityScore, c10DetB, c10Canvas]
      norm_num [Real.sqrt_zero, min_def]
    have hle : qualityDescLe c10FaceA c10FaceB = false := by
      simp only [qualityDescLe, hqA, hqB]
      rw [decide_eq_false_iff_not]
      norm_num
    have hsort : stableSortBy qualityDescLe [c10FaceA, c10FaceB]
        = [c10FaceB, c10FaceA] := by
      simp [stableSortBy, insertStable, hle]
    have hfA : decide ((15 : ℝ)/100 < c10FaceA.quality) = true := by
      rw [hqA]; exact decide_eq_true (by norm_num)
    have hfB : decide ((15 : ℝ)/100 < c10FaceB.quality) = true := by
      rw [hqB]; exact decide_eq_true (by norm_num)
    have hfil : smartFilterFaces [c10FaceB, c10FaceA] true
        = [c10FaceB, c10FaceA] := by
      simp only [smartFilterFaces, if_true]
      simp [List.filter, hfA, hfB]
    simp only [detectPipeline, hded, hasm, hsort, hfil]
    rfl

/-- Appending one task-execution block preserves the trace property that
every `taskRun` event is immediately followed by a forced reclamation. -/
theorem forcedAfter_append (tr : List Event) (t : ℕ)
    (hP : ∀ i u, tr.get? i = some (Event.taskRun u) →
      tr.get? (i + 1) = some (Event.reclaim true)) :
    ∀ i u,
      (tr ++ [Event.taskRun t, Event.reclaim true, Event.reclaim false]).get? i
        = some (Event.taskRun u) →
      (tr ++ [Event.taskRun t, Event.reclaim true, Event.reclaim false]).get?
          (i + 1) = some (Event.reclaim true) := by
  intro i u hi
  rcases lt_trichotomy i tr.length with hlt | heq | hgt
  · rw [List.get?_append hlt] at hi
    have h2 := hP i u hi
    have hlt2 : i + 1 < tr.length := by
      rcases List.get?_eq_some.1 h2 with ⟨hb, -⟩
      exact hb
    rw [List.get?_append hlt2]
    exact h2
  · subst heq
    have harith : tr.length + 1 - tr.length = 1 := by omega
    rw [List.get?_append_right (by omega : tr.length ≤ tr.length + 1), harith]
    rfl
  · rw [List.get?_append_right (by omega)] at hi
    have hk : i - tr.length = 1 ∨ i - tr.length = 2 ∨ 3 ≤ i - tr.length := by
      omega
    rcases hk with hk | hk | hk
    · rw [hk] at hi
      simp at hi
    · rw [hk] at hi
      simp at hi
    · rw [List.get?_eq_none.2 (by simpa using hk)] at hi
      exact absurd hi (by simp)

/-- Claim C8: in every reachable state of the queue system, (1) the
executed-task trace, the in-flight batch and the pending queue together
list the submitted task ids `0, 1, 2, ...` in submission order — so tasks
run strictly in FIFO submission order, one per `runTask` step; (2) a
batch never holds more than `BATCH_SIZE` tasks; (3) the single
`isProcessing` guard is exact: whenever it is clear there is no batch in
flight (so at most one batch is ever in flight); (4) every executed task
is immediately followed by a forced resource reclamation. -/
theorem claim_C8_queue (s : QState) (h : Reaches s) :
    (runIds s.trace ++ s.batch ++ s.queue = List.range s.nextId) ∧
    s.batch.length ≤ BATCH_SIZE ∧
    (s.isProcessing = false → s.batch = []) ∧
    (∀ i t, s.trace.get? i = some (Event.taskRun t) →
      s.trace.get? (i + 1) = some (Event.reclaim true)) := by
  induction h with
  | init =>
    refine ⟨by simp [initState, runIds], by simp [initState, BATCH_SIZE], ?_, ?_⟩
    · intro
      rfl
    · intro i t hi
      simp [initState] at hi
  | @step sp s2 hr hstep ih =>
    rcases ih with ⟨ih1, ih2, ih3, ih4⟩
    have hrange : List.range (sp.nextId + 1) =
        List.range sp.nextId ++ [sp.nextId] := by
      simpa using List.range_succ sp.nextId
    cases hstep with
    | submit =>
      by_cases hp : sp.isProcessing = true
      · simp only [submitStep, if_pos hp]
        refine ⟨?_, ih2, ?_, ih4⟩
        · rw [hrange, ← ih1]
          simp [List.append_assoc]
        · intro hfalse
          rw [hp] at hfalse
          exact absurd hfalse (by simp)
      · have hbatch : sp.batch = [] := ih3 (by simpa using hp)
        simp only [submitStep, if_neg hp]
        refine ⟨?_, List.length_take_le _ _, ?_, ih4⟩
        · rw [List.append_assoc, List.take_append_drop, hrange, ← ih1, hbatch]
          simp
        · intro hfalse
          exact absurd hfalse (by simp)
    | wake =>
      by_cases hw : sp.isProcessing = true ∨ sp.queue = []
      · simp only [wakeStep, if_pos hw]
        exact ⟨ih1, ih2, ih3, ih4⟩
      · have hproc : sp.isProcessing = false := by
          rcases Bool.eq_false_or_eq_true sp.isProcessing with h | h
          · exact absurd (Or.inl h) hw
          · exact h
        have hbatch : sp.batch = [] := ih3 hproc
        simp only [wakeStep, if_neg hw]
        refine ⟨?_, List.length_take_le _ _, ?_, ih4⟩
        · rw [List.append_assoc, List.take_append_drop, ← ih1, hbatch]
          simp
        · intro hfalse
          exact absurd hfalse (by simp)
    | runTask t rest hb =>
      refine ⟨?_, ?_, ?_, forcedAfter_append _ _ ih4⟩
      · have hblock : runIds (sp.trace ++
            [Event.taskRun t, Event.reclaim true, Event.reclaim false]) =
            runIds sp.trace ++ [t] := by
          simp [runIds, List.filterMap_append, List.filterMap]
        simp only
        rw [hblock, ← ih1, hb]
        simp [List.append_assoc]
      · have hlen := ih2
        rw [hb] at hlen
        simp only [List.length_cons] at hlen
        exact Nat.le_of_succ_le hlen
      · intro hfalse
        have hcontra := ih3 hfalse
        rw [hb] at hcontra
        exact absurd hcontra (by simp)
    | finishBatch h1 h2 =>
      exact ⟨ih1, ih2, fun _ => h2, ih4⟩

/-- Claim C8 (witness): the invariants at the concrete reachable state
`c8State`, reached by submitting task 0, running it, finishing the batch,
submitting task 1 and running it. -/
theorem claim_C8_witness :
    (runIds c8State.trace ++ c8State.batch ++ c8State.queue
      = List.range c8State.nextId) ∧
    c8State.batch.length ≤ BATCH_SIZE ∧
    (c8State.isProcessing = false → c8State.batch = []) ∧
    (∀ i t, c8State.trace.get? i = some (Event.taskRun t) →
      c8State.trace.get? (i + 1) = some (Event.reclaim true)) :=
  claim_C8_queue c8State
    (Reaches.step
      (Reaches.step
        (Reaches.step
          (Reaches.step
            (Reaches.step Reaches.init (Step.submit initState))
            (Step.runTask _ 0 [] rfl))
          (Step.finishBatch _ rfl rfl))
        (Step.submit _))
      (Step.runTask _ 1 [] rfl))

end FaceApi
